import Mathlib

/-!
Verification of the Credit-Card-Fraud-Detection repository.

The repository has two source files:
  * `train_model.py` — generates a synthetic labeled dataset, engineers three
    derived features, trains a scaler plus random-forest classifier and
    persists three artifacts (model, scaler, ordered feature-name list);
  * `app.py` — a dashboard that loads the three artifacts, assembles one
    feature vector from slider inputs, and renders the fraud probability,
    the binary decision and a risk tier.

Numeric values are embedded as rationals (`ℚ`); the Python floats of the
source are modelled exactly by the rational constants they denote, which is
adequate for every claim below (the spec itself qualifies numeric equality
with floating-point tolerance).  Library randomness (numpy draws) is
abstracted by a `Sampler` interface threaded through an explicit `Rng`
state, exactly following the sequence and parameters of the draws in the
source; the pandas shuffle `df.sample(frac=1, random_state=42)` is modelled
by a deterministic seed-keyed Fisher–Yates permutation.
-/

namespace FraudDetection

/-- One raw transaction record: the 15 raw fields generated by
`make_legit` / `make_fraud` in train_model.py. -/
structure RawRecord where
  amount : ℚ
  hour_of_day : ℚ
  day_of_week : ℚ
  merchant_category : ℚ
  num_transactions_1h : ℚ
  num_transactions_24h : ℚ
  avg_amount_30d : ℚ
  distance_from_home : ℚ
  is_online : ℚ
  is_international : ℚ
  card_present : ℚ
  days_since_last_txn : ℚ
  credit_limit_used_pct : ℚ
  velocity_score : ℚ
  geo_risk_score : ℚ
deriving DecidableEq

/-- A raw record together with the binary label column `is_fraud`
(0 = legitimate, 1 = fraud), as in train_model.py lines 67-70. -/
structure LabeledRecord where
  raw : RawRecord
  is_fraud : ℕ
deriving DecidableEq

namespace TrainModel

/-- train_model.py line 75:
`df['amount_to_avg_ratio'] = df['amount'] / (df['avg_amount_30d'] + 1)`,
read row-wise. -/
def amount_to_avg_ratio (r : RawRecord) : ℚ :=
  r.amount / (r.avg_amount_30d + 1)

/-- train_model.py line 76:
`df['txn_burst'] = df['num_transactions_1h'] / (df['num_transactions_24h'] + 1)`. -/
def txn_burst (r : RawRecord) : ℚ :=
  r.num_transactions_1h / (r.num_transactions_24h + 1)

/-- train_model.py line 77:
`df['risk_composite'] = (df['velocity_score'] + df['geo_risk_score']) / 2`. -/
def risk_composite (r : RawRecord) : ℚ :=
  (r.velocity_score + r.geo_risk_score) / 2

/-- train_model.py lines 79-85: the ordered list of the 18 feature names,
persisted verbatim as the `feature_names.joblib` artifact. -/
def FEATURES : List String :=
  ["amount", "hour_of_day", "day_of_week", "merchant_category",
   "num_transactions_1h", "num_transactions_24h", "avg_amount_30d",
   "distance_from_home", "is_online", "is_international", "card_present",
   "days_since_last_txn", "credit_limit_used_pct", "velocity_score",
   "geo_risk_score", "amount_to_avg_ratio", "txn_burst", "risk_composite"]

end TrainModel

/-- The state of the numpy global random generator, abstracted: the source
calls `np.random.seed(42)` once and every draw advances this state. -/
structure Rng where
  state : ℕ
deriving DecidableEq

/-- The family of numpy draw primitives the generator uses.  Each primitive
consumes the generator state and returns one value plus the new state; the
parameters are exactly those passed in train_model.py.  The distributions
themselves (lognormal, Poisson, beta, exponential, weighted choice) are
library code outside the repository, so they are abstracted as an interface:
every claim about the generator below holds for an arbitrary sampler. -/
structure Sampler where
  lognormal : ℚ → ℚ → Rng → ℚ × Rng
  poisson : ℚ → Rng → ℚ × Rng
  exponential : ℚ → Rng → ℚ × Rng
  beta : ℚ → ℚ → Rng → ℚ × Rng
  choice : List ℚ → Rng → ℚ × Rng
  choice_p : List ℚ → List ℚ → Rng → ℚ × Rng

/-- `np.random.X(..., n)`: draw a column of `n` values, threading the
generator state left to right. -/
def drawColumn (draw : Rng → ℚ × Rng) : ℕ → Rng → List ℚ × Rng
  | 0, g => ([], g)
  | n + 1, g =>
    let p := draw g
    let rest := drawColumn draw n p.2
    (p.1 :: rest.1, rest.2)

namespace TrainModel

/-- `range(6, 23)` of train_model.py line 32: legitimate business hours. -/
def legitHours : List ℚ := (List.range' 6 17).map (fun i => (i : ℚ))

/-- `list(range(0, 6)) + list(range(22, 24))` of line 51: odd hours. -/
def fraudHours : List ℚ :=
  ((List.range 6).map (fun i => (i : ℚ))) ++ ((List.range' 22 2).map (fun i => (i : ℚ)))

/-- `range(7)` of lines 33 and 52. -/
def weekDays : List ℚ := (List.range 7).map (fun i => (i : ℚ))

/-- `range(10)` of lines 34 and 53. -/
def merchantCategories : List ℚ := (List.range 10).map (fun i => (i : ℚ))

/-- train_model.py lines 29-46, `make_legit(n)`: draw the 15 raw columns of
the legitimate population, column by column in source order, then read the
DataFrame as a list of `n` rows. -/
def make_legit (S : Sampler) (n : ℕ) (g0 : Rng) : List RawRecord × Rng :=
  let c1 := drawColumn (S.lognormal 4 (6/5)) n g0
  let c2 := drawColumn (S.choice legitHours) n c1.2
  let c3 := drawColumn (S.choice weekDays) n c2.2
  let c4 := drawColumn (S.choice merchantCategories) n c3.2
  let c5 := drawColumn (S.poisson (3/2)) n c4.2
  let c6 := drawColumn (S.poisson 5) n c5.2
  let c7 := drawColumn (S.lognormal (19/5) (9/10)) n c6.2
  let c8 := drawColumn (S.exponential 20) n c7.2
  let c9 := drawColumn (S.choice_p [0, 1] [3/5, 2/5]) n c8.2
  let c10 := drawColumn (S.choice_p [0, 1] [19/20, 1/20]) n c9.2
  let c11 := drawColumn (S.choice_p [0, 1] [3/10, 7/10]) n c10.2
  let c12 := drawColumn (S.exponential 2) n c11.2
  let c13 := drawColumn (S.beta 2 8) n c12.2
  let c14 := drawColumn (S.beta 2 10) n c13.2
  let c15 := drawColumn (S.beta 1 15) n c14.2
  let rows := (List.range n).map (fun i =>
    { amount := c1.1.getD i 0
      hour_of_day := c2.1.getD i 0
      day_of_week := c3.1.getD i 0
      merchant_category := c4.1.getD i 0
      num_transactions_1h := c5.1.getD i 0
      num_transactions_24h := c6.1.getD i 0
      avg_amount_30d := c7.1.getD i 0
      distance_from_home := c8.1.getD i 0
      is_online := c9.1.getD i 0
      is_international := c10.1.getD i 0
      card_present := c11.1.getD i 0
      days_since_last_txn := c12.1.getD i 0
      credit_limit_used_pct := c13.1.getD i 0
      velocity_score := c14.1.getD i 0
      geo_risk_score := c15.1.getD i 0 : RawRecord })
  (rows, c15.2)

/-- train_model.py lines 48-65, `make_fraud(n)`: the fraud population, a
second fixed parameter set. -/
def make_fraud (S : Sampler) (n : ℕ) (g0 : Rng) : List RawRecord × Rng :=
  let c1 := drawColumn (S.lognormal (11/2) (3/2)) n g0
  let c2 := drawColumn (S.choice fraudHours) n c1.2
  let c3 := drawColumn (S.choice weekDays) n c2.2
  let c4 := drawColumn (S.choice merchantCategories) n c3.2
  let c5 := drawColumn (S.poisson (9/2)) n c4.2
  let c6 := drawColumn (S.poisson 12) n c5.2
  let c7 := drawColumn (S.lognormal (16/5) (4/5)) n c6.2
  let c8 := drawColumn (S.exponential 200) n c7.2
  let c9 := drawColumn (S.choice_p [0, 1] [3/10, 7/10]) n c8.2
  let c10 := drawColumn (S.choice_p [0, 1] [1/2, 1/2]) n c9.2
  let c11 := drawColumn (S.choice_p [0, 1] [7/10, 3/10]) n c10.2
  let c12 := drawColumn (S.exponential (1/2)) n c11.2
  let c13 := drawColumn (S.beta 8 2) n c12.2
  let c14 := drawColumn (S.beta 8 2) n c13.2
  let c15 := drawColumn (S.beta 8 2) n c14.2
  let rows := (List.range n).map (fun i =>
    { amount := c1.1.getD i 0
      hour_of_day := c2.1.getD i 0
      day_of_week := c3.1.getD i 0
      merchant_category := c4.1.getD i 0
      num_transactions_1h := c5.1.getD i 0
      num_transactions_24h := c6.1.getD i 0
      avg_amount_30d := c7.1.getD i 0
      distance_from_home := c8.1.getD i 0
      is_online := c9.1.getD i 0
      is_international := c10.1.getD i 0
      card_present := c11.1.getD i 0
      days_since_last_txn := c12.1.getD i 0
      credit_limit_used_pct := c13.1.getD i 0
      velocity_score := c14.1.getD i 0
      geo_risk_score := c15.1.getD i 0 : RawRecord })
  (rows, c15.2)

end TrainModel

/-- A linear congruential step, standing in for the pandas random source
driving `df.sample`. -/
def lcg (s : ℕ) : ℕ := (s * 1103515245 + 12345) % 2147483648

/-- Fisher–Yates draft of a seed-keyed permutation: repeatedly pick the
position `g % length` and move that element to the front.  Fuel equals the
list length at the top call, so the whole list is consumed. -/
def sampleShuffleFuel {α : Type} : ℕ → ℕ → List α → List α
  | 0, _, l => l
  | fuel + 1, g, l =>
    match l[g % l.length]? with
    | none => l
    | some a => a :: sampleShuffleFuel fuel (lcg g) (l.eraseIdx (g % l.length))

/-- Model of `df.sample(frac=1, random_state=seed)` (train_model.py line
72): a deterministic, seed-keyed uniform re-ordering of the rows.  The exact
permutation pandas computes is library-internal; what the claims use is that
it is a permutation and a pure function of `(seed, rows)`. -/
def pandasSample {α : Type} (seed : ℕ) (l : List α) : List α :=
  sampleShuffleFuel l.length seed l

/-- Python's `int(...)` applied to a nonnegative or negative rational:
truncation toward zero. -/
def pyInt (q : ℚ) : ℤ := if 0 ≤ q then ⌊q⌋ else ⌈q⌉

namespace TrainModel

/-- train_model.py lines 22-72 as one function of the population parameters
and the numpy seed: `n_fraud = int(N * FRAUD_RATE)`, `n_legit = N - n_fraud`,
draw both populations, attach the label, concatenate, shuffle.  The script
performs no parameter validation; the only possible failure is the
`ValueError` numpy raises when asked for a negative sample size, which is
modelled by the `Except.error` branch. -/
def generate (S : Sampler) (N : ℤ) (rate : ℚ) (seed : ℕ) :
    Except String (List LabeledRecord) :=
  let n_fraud : ℤ := pyInt ((N : ℚ) * rate)
  let n_legit : ℤ := N - n_fraud
  if n_legit < 0 ∨ n_fraud < 0 then
    Except.error "ValueError: negative dimensions are not allowed"
  else
    let g0 : Rng := ⟨seed⟩
    let legit := make_legit S n_legit.toNat g0
    let fraud := make_fraud S n_fraud.toNat legit.2
    let labeled :=
      (legit.1.map (fun r => ({ raw := r, is_fraud := 0 } : LabeledRecord))) ++
      (fraud.1.map (fun r => ({ raw := r, is_fraud := 1 } : LabeledRecord)))
    Except.ok (pandasSample 42 labeled)

/-- train_model.py line 23: the dataset size, a hardcoded module constant. -/
def N : ℤ := 50000

/-- train_model.py line 24: `FRAUD_RATE = 0.02`, a hardcoded module
constant. -/
def FRAUD_RATE : ℚ := 1/50

/-- Running `python train_model.py argv...`: the script reads no
command-line arguments (`sys.argv` is never consulted), seeds numpy with 42
(line 22) and generates the dataset from the two hardcoded constants.  The
remainder of the script (split, fit, evaluate, persist) consumes this
dataset; the dataset is what the parameter claims are about. -/
def train_entry_point (S : Sampler) (argv : List String) :
    Except String (List LabeledRecord) :=
  generate S N FRAUD_RATE 42

end TrainModel

namespace App

/-- app.py line 470: `amount_to_avg = amount / (avg_amt_30d + 1)`. -/
def amount_to_avg (amount avg_amt_30d : ℚ) : ℚ := amount / (avg_amt_30d + 1)

/-- app.py line 471: `txn_burst = num_txn_1h / (num_txn_24h + 1)`. -/
def txn_burst (num_txn_1h num_txn_24h : ℚ) : ℚ := num_txn_1h / (num_txn_24h + 1)

/-- app.py line 472: `risk_comp = (velocity_sc + geo_risk_sc) / 2`. -/
def risk_comp (velocity_sc geo_risk_sc : ℚ) : ℚ := (velocity_sc + geo_risk_sc) / 2

/-- app.py line 499: `prediction = int(prob_fraud > 0.5)`. -/
def prediction (prob_fraud : ℚ) : ℕ := if prob_fraud > 1/2 then 1 else 0

/-- The four risk tiers of app.py lines 502-505. -/
inductive RiskTier where
  | LOW
  | MODERATE
  | HIGH
  | CRITICAL
deriving DecidableEq

/-- app.py lines 502-505: the if/elif chain assigning the tier from the
fraud probability. -/
def risk_tier (prob_fraud : ℚ) : RiskTier :=
  if prob_fraud < 1/5 then RiskTier.LOW
  else if prob_fraud < 1/2 then RiskTier.MODERATE
  else if prob_fraud < 4/5 then RiskTier.HIGH
  else RiskTier.CRITICAL

/-- app.py line 429: `dow_map = {"Mon":0, ..., "Sun":6}`. -/
def dow_map : List (String × ℚ) :=
  [("Mon", 0), ("Tue", 1), ("Wed", 2), ("Thu", 3), ("Fri", 4), ("Sat", 5), ("Sun", 6)]

end App

/-- The sidebar widget values of app.py lines 426-454, one per widget, with
the widget's value type (checkboxes are booleans, the day selectbox yields
one of the seven strings). -/
structure SidebarInputs where
  amount : ℚ
  hour_of_day : ℚ
  day_of_week : String
  merchant_cat : ℚ
  distance : ℚ
  is_online : Bool
  is_intl : Bool
  card_present : Bool
  num_txn_1h : ℚ
  num_txn_24h : ℚ
  avg_amt_30d : ℚ
  days_since : ℚ
  credit_pct : ℚ
  velocity_sc : ℚ
  geo_risk_sc : ℚ

namespace App

/-- app.py lines 474-493: the `input_data` dict, key by key in source
order; the last three entries are the derived features of lines 470-472. -/
def input_data (s : SidebarInputs) : List (String × ℚ) :=
  [("amount", s.amount),
   ("hour_of_day", s.hour_of_day),
   ("day_of_week", (dow_map.lookup s.day_of_week).getD 0),
   ("merchant_category", s.merchant_cat),
   ("num_transactions_1h", s.num_txn_1h),
   ("num_transactions_24h", s.num_txn_24h),
   ("avg_amount_30d", s.avg_amt_30d),
   ("distance_from_home", s.distance),
   ("is_online", if s.is_online then 1 else 0),
   ("is_international", if s.is_intl then 1 else 0),
   ("card_present", if s.card_present then 1 else 0),
   ("days_since_last_txn", s.days_since),
   ("credit_limit_used_pct", s.credit_pct),
   ("velocity_score", s.velocity_sc),
   ("geo_risk_score", s.geo_risk_sc),
   ("amount_to_avg_ratio", amount_to_avg s.amount s.avg_amt_30d),
   ("txn_burst", txn_burst s.num_txn_1h s.num_txn_24h),
   ("risk_composite", risk_comp s.velocity_sc s.geo_risk_sc)]

end App

/-- `pd.DataFrame([row])[cols]` (app.py line 495): select the named columns
in the given order; a missing column is a `KeyError`, modelled as `none`. -/
def selectColumns (row : List (String × ℚ)) : List String → Option (List ℚ)
  | [] => some []
  | c :: cs =>
    match row.lookup c with
    | none => none
    | some v => (selectColumns row cs).map (fun vs => v :: vs)

/-- The artifact triple `load_artifacts` returns (app.py lines 23-28): the
fitted classifier's two-class probability function `[P(legit), P(fraud)]`,
the fitted scaler's transform, and the persisted feature-name list. -/
structure Artifacts where
  predict_proba : List ℚ → ℚ × ℚ
  transform : List ℚ → List ℚ
  feature_names : List String

/-- What one run of the app script does after the model check. -/
inductive AppOutcome where
  | halted (message : String)
  | crashed (message : String)
  | rendered (prob_fraud : ℚ) (decision : ℕ) (tier : RiskTier)

namespace App

/-- app.py top-level control flow around inference: lines 30-34 set
`MODEL_LOADED` from the artifact load (a missing file raises
`FileNotFoundError`, modelled by `none`); lines 409-412 halt with the error
message before any inference when the load failed (`st.stop()`); lines
495-505 otherwise assemble the vector in `FEATURES` order, scale it, read
`prob_fraud = prob[1]` and compute the decision and the tier. -/
def runApp (loadResult : Option Artifacts) (s : SidebarInputs) : AppOutcome :=
  match loadResult with
  | none =>
    AppOutcome.halted "⚠️ Model files not found. Please run `python train_model.py` first."
  | some a =>
    match selectColumns (input_data s) a.feature_names with
    | none => AppOutcome.crashed "KeyError"
    | some input_df =>
      let input_sc := a.transform input_df
      let prob := a.predict_proba input_sc
      let prob_fraud := prob.2
      AppOutcome.rendered prob_fraud (prediction prob_fraud) (risk_tier prob_fraud)

end App

/-- A concrete sampler used to instantiate the generator theorems: every
draw returns 0 and advances the state.  (The theorems hold for an arbitrary
sampler; this one only serves the closed witnesses.) -/
def constSampler : Sampler where
  lognormal := fun _ _ g => (0, ⟨g.state + 1⟩)
  poisson := fun _ g => (0, ⟨g.state + 1⟩)
  exponential := fun _ g => (0, ⟨g.state + 1⟩)
  beta := fun _ _ g => (0, ⟨g.state + 1⟩)
  choice := fun _ g => (0, ⟨g.state + 1⟩)
  choice_p := fun _ _ g => (0, ⟨g.state + 1⟩)

/-- The concrete example record of the spec (§8): amount 120, 14:00 on a
Tuesday, merchant category 0, 1 txn in the last hour, 4 in 24h, 30-day
average 85, 15 km from home, card present, 2 days since last transaction,
20% credit used, velocity 0.1, geo risk 0.05. -/
def exampleSidebar : SidebarInputs where
  amount := 120
  hour_of_day := 14
  day_of_week := "Tue"
  merchant_cat := 0
  distance := 15
  is_online := false
  is_intl := false
  card_present := true
  num_txn_1h := 1
  num_txn_24h := 4
  avg_amt_30d := 85
  days_since := 2
  credit_pct := 1/5
  velocity_sc := 1/10
  geo_risk_sc := 1/20

/-! ## Helper lemmas -/

theorem prediction_eq_one_iff (p : ℚ) : App.prediction p = 1 ↔ 1/2 < p := by
  unfold App.prediction
  split_ifs with h
  · simpa using h
  · simpa using h

theorem prediction_eq_zero_iff (p : ℚ) : App.prediction p = 0 ↔ p ≤ 1/2 := by
  unfold App.prediction
  split_ifs with h
  · simp only [one_ne_zero, false_iff, not_le]
    exact h
  · simp only [true_iff]
    exact le_of_not_lt h

theorem risk_tier_LOW_iff (p : ℚ) : App.risk_tier p = App.RiskTier.LOW ↔ p < 1/5 := by
  unfold App.risk_tier
  split_ifs with h1 h2 h3 <;> simp_all

theorem risk_tier_MODERATE_iff (p : ℚ) :
    App.risk_tier p = App.RiskTier.MODERATE ↔ 1/5 ≤ p ∧ p < 1/2 := by
  unfold App.risk_tier
  split_ifs with h1 h2 h3
  · simp only [reduceCtorEq, false_iff, not_and]
    intro ha
    exact absurd h1 (not_lt.mpr ha)
  · simp only [true_iff]
    exact ⟨le_of_not_lt h1, h2⟩
  · simp only [reduceCtorEq, false_iff, not_and]
    intro _
    exact not_lt.mpr (le_of_not_lt h2)
  · simp only [reduceCtorEq, false_iff, not_and]
    intro _
    exact not_lt.mpr (le_of_not_lt h2)

theorem risk_tier_HIGH_iff (p : ℚ) :
    App.risk_tier p = App.RiskTier.HIGH ↔ 1/2 ≤ p ∧ p < 4/5 := by
  unfold App.risk_tier
  split_ifs with h1 h2 h3
  · simp only [reduceCtorEq, false_iff, not_and]
    intro ha
    exact absurd (lt_of_lt_of_le h1 (by norm_num)) (not_lt.mpr ha)
  · simp only [reduceCtorEq, false_iff, not_and]
    intro ha
    exact absurd h2 (not_lt.mpr ha)
  · simp only [true_iff]
    exact ⟨le_of_not_lt h2, h3⟩
  · simp only [reduceCtorEq, false_iff, not_and]
    intro _
    exact not_lt.mpr (le_of_not_lt h3)

theorem risk_tier_CRITICAL_iff (p : ℚ) :
    App.risk_tier p = App.RiskTier.CRITICAL ↔ 4/5 ≤ p := by
  unfold App.risk_tier
  split_ifs with h1 h2 h3
  · simp only [reduceCtorEq, false_iff, not_le]
    exact lt_of_lt_of_le h1 (by norm_num)
  · simp only [reduceCtorEq, false_iff, not_le]
    exact lt_of_lt_of_le h2 (by norm_num)
  · simp only [reduceCtorEq, false_iff, not_le]
    exact h3
  · simp only [true_iff]
    exact le_of_not_lt h3

theorem selectColumns_eq_none {row : List (String × ℚ)} {cols : List String} {c : String}
    (hc : c ∈ cols) (hmiss : row.lookup c = none) : selectColumns row cols = none := by
  induction cols with
  | nil => simp at hc
  | cons d cs ih =>
    rcases List.mem_cons.mp hc with h | h
    · subst h
      simp [selectColumns, hmiss]
    · cases hd : row.lookup d with
      | none => simp [selectColumns, hd]
      | some v => simp [selectColumns, hd, ih h]

theorem perm_getElem_cons_eraseIdx {α : Type} (l : List α) (i : ℕ) (h : i < l.length) :
    l.Perm (l[i] :: l.eraseIdx i) := by
  induction l generalizing i with
  | nil => simp at h
  | cons a t ih =>
    cases i with
    | zero => simp
    | succ j =>
      have hj : j < t.length := by simpa using h
      rw [List.getElem_cons_succ, List.eraseIdx_cons_succ]
      exact ((ih j hj).cons a).trans (List.Perm.swap _ _ _)

theorem sampleShuffleFuel_perm {α : Type} (fuel g : ℕ) (l : List α) :
    (sampleShuffleFuel fuel g l).Perm l := by
  induction fuel generalizing g l with
  | zero => exact List.Perm.refl _
  | succ n ih =>
    simp only [sampleShuffleFuel]
    split
    · exact List.Perm.refl _
    · next a heq =>
      obtain ⟨h, hEq⟩ := List.getElem?_eq_some_iff.mp heq
      subst hEq
      exact ((ih (lcg g) _).cons _).trans (perm_getElem_cons_eraseIdx l _ h).symm

theorem pandasSample_perm {α : Type} (seed : ℕ) (l : List α) :
    (pandasSample seed l).Perm l :=
  sampleShuffleFuel_perm l.length seed l

theorem make_legit_length (S : Sampler) (n : ℕ) (g : Rng) :
    (TrainModel.make_legit S n g).1.length = n := by
  simp [TrainModel.make_legit]

theorem make_fraud_length (S : Sampler) (n : ℕ) (g : Rng) :
    (TrainModel.make_fraud S n g).1.length = n := by
  simp [TrainModel.make_fraud]

theorem pyInt_close_to_round (q : ℚ) (h : 0 ≤ q) : |pyInt q - round q| ≤ 1 := by
  rw [pyInt, if_pos h, round_eq]
  have h1 : ⌊q⌋ ≤ ⌊q + 1/2⌋ := Int.floor_le_floor (by linarith)
  have h2 : ⌊q + 1/2⌋ ≤ ⌊q⌋ + 1 := by
    have h3 : ⌊q + 1/2⌋ ≤ ⌊q + (1 : ℤ)⌋ := Int.floor_le_floor (by push_cast; linarith)
    simpa [Int.floor_add_int] using h3
  rw [abs_le]
  omega

theorem generate_eq_ok (S : Sampler) (N : ℤ) (rate : ℚ) (seed : ℕ)
    (h1 : 0 ≤ pyInt ((N : ℚ) * rate)) (h2 : pyInt ((N : ℚ) * rate) ≤ N) :
    ∃ rows, TrainModel.generate S N rate seed = Except.ok rows
      ∧ rows.length = N.toNat
      ∧ rows.countP (fun r => r.is_fraud == 1) = (pyInt ((N : ℚ) * rate)).toNat
      ∧ rows.countP (fun r => r.is_fraud == 0)
          = N.toNat - (pyInt ((N : ℚ) * rate)).toNat := by
  simp only [TrainModel.generate]
  rw [if_neg (by omega)]
  refine ⟨_, rfl, ?_, ?_, ?_⟩
  · rw [(pandasSample_perm _ _).length_eq]
    simp only [List.length_append, List.length_map, make_legit_length, make_fraud_length]
    omega
  · rw [(pandasSample_perm _ _).countP_eq]
    simp [List.countP_map, Function.comp_def, make_fraud_length]
  · rw [(pandasSample_perm _ _).countP_eq]
    simp [List.countP_map, Function.comp_def, make_legit_length]
    omega

/-! ## Claim theorems -/

/-- C1: for every record, the three derived features equal their closed-form
definitions — amount_to_avg_ratio = amount / (avg_amount_30d + 1),
txn_burst = num_transactions_1h / (num_transactions_24h + 1),
risk_composite = (velocity_score + geo_risk_score) / 2 — the training-time
(train_model.py lines 75-77) and inference-time (app.py lines 470-472)
computations are identical functions of the raw fields, and the hand-picked
examples evaluate as stated: 120/(85+1) = 120/86, 1/(4+1) = 1/5,
(0.1+0.05)/2 = 0.075. -/
theorem C1_derived_features (r : RawRecord) :
    TrainModel.amount_to_avg_ratio r = r.amount / (r.avg_amount_30d + 1)
    ∧ TrainModel.txn_burst r = r.num_transactions_1h / (r.num_transactions_24h + 1)
    ∧ TrainModel.risk_composite r = (r.velocity_score + r.geo_risk_score) / 2
    ∧ TrainModel.amount_to_avg_ratio r = App.amount_to_avg r.amount r.avg_amount_30d
    ∧ TrainModel.txn_burst r = App.txn_burst r.num_transactions_1h r.num_transactions_24h
    ∧ TrainModel.risk_composite r = App.risk_comp r.velocity_score r.geo_risk_score
    ∧ App.amount_to_avg 120 85 = 120/86
    ∧ App.txn_burst 1 4 = 1/5
    ∧ App.risk_comp (1/10) (1/20) = 3/40 :=
  ⟨rfl, rfl, rfl, rfl, rfl, rfl, by norm_num [App.amount_to_avg],
   by norm_num [App.txn_burst], by norm_num [App.risk_comp]⟩

/-- C2: the predicted class is fraud (1) iff the fraud probability strictly
exceeds 0.5 (app.py line 499, `int(prob_fraud > 0.5)`); at exactly 0.5 the
decision is not-fraud, at 0.5000001 it is fraud; the threshold is the fixed
constant 0.5 baked into `prediction`, with no per-call parameter. -/
theorem C2_decision_threshold (p : ℚ) :
    (App.prediction p = 1 ↔ 1/2 < p)
    ∧ (App.prediction p = 0 ↔ p ≤ 1/2)
    ∧ App.prediction (1/2) = 0
    ∧ App.prediction (5000001/10000000) = 1 :=
  ⟨prediction_eq_one_iff p, prediction_eq_zero_iff p,
   by norm_num [App.prediction], by norm_num [App.prediction]⟩

/-- C3: the risk tier (app.py lines 502-505) is LOW iff p < 0.20, MODERATE
iff 0.20 ≤ p < 0.50, HIGH iff 0.50 ≤ p < 0.80, CRITICAL iff 0.80 ≤ p; the
boundaries are closed on the lower bound, so p = 0.2 yields MODERATE and
p = 0.1999 yields LOW. -/
theorem C3_risk_tiers (p : ℚ) :
    (App.risk_tier p = App.RiskTier.LOW ↔ p < 1/5)
    ∧ (App.risk_tier p = App.RiskTier.MODERATE ↔ 1/5 ≤ p ∧ p < 1/2)
    ∧ (App.risk_tier p = App.RiskTier.HIGH ↔ 1/2 ≤ p ∧ p < 4/5)
    ∧ (App.risk_tier p = App.RiskTier.CRITICAL ↔ 4/5 ≤ p)
    ∧ App.risk_tier (1/5) = App.RiskTier.MODERATE
    ∧ App.risk_tier (1999/10000) = App.RiskTier.LOW :=
  ⟨risk_tier_LOW_iff p, risk_tier_MODERATE_iff p, risk_tier_HIGH_iff p,
   risk_tier_CRITICAL_iff p, by norm_num [App.risk_tier],
   by norm_num [App.risk_tier]⟩

/-- C10: the binary decision and the risk tier computed from the same fraud
probability agree in one direction: a fraud decision (p > 0.5) always comes
with tier HIGH or CRITICAL, and a LOW or MODERATE tier is only ever reported
together with a not-fraud decision. -/
theorem C10_decision_tier_consistency (p : ℚ) :
    (App.prediction p = 1 →
      App.risk_tier p = App.RiskTier.HIGH ∨ App.risk_tier p = App.RiskTier.CRITICAL)
    ∧ ((App.risk_tier p = App.RiskTier.LOW ∨ App.risk_tier p = App.RiskTier.MODERATE) →
      App.prediction p = 0) := by
  constructor
  · intro h
    have hp : 1/2 < p := (prediction_eq_one_iff p).mp h
    by_cases hq : p < 4/5
    · exact Or.inl ((risk_tier_HIGH_iff p).mpr ⟨hp.le, hq⟩)
    · exact Or.inr ((risk_tier_CRITICAL_iff p).mpr (le_of_not_lt hq))
  · rintro (h | h)
    · have hp : p < 1/5 := (risk_tier_LOW_iff p).mp h
      exact (prediction_eq_zero_iff p).mpr (by linarith)
    · have hp : p < 1/2 := ((risk_tier_MODERATE_iff p).mp h).2
      exact (prediction_eq_zero_iff p).mpr hp.le

/-- C4: the ordered 18-name feature list of train_model.py (lines 79-85,
persisted as an artifact) exactly matches, by name and order, the keys of
the `input_data` dict assembled at inference (app.py lines 474-493): the
column selection `pd.DataFrame([input_data])[FEATURES]` therefore returns
the 18 values in exactly the training order; and when a required field is
absent from the record, the selection fails (pandas `KeyError`, modelled as
`none`) instead of scoring a misordered or incomplete vector. -/
theorem C4_feature_order (s : SidebarInputs) (row : List (String × ℚ)) (c : String)
    (hc : c ∈ TrainModel.FEATURES) (hmiss : row.lookup c = none) :
    (App.input_data s).map Prod.fst = TrainModel.FEATURES
    ∧ TrainModel.FEATURES.length = 18
    ∧ selectColumns (App.input_data s) TrainModel.FEATURES
        = some ((App.input_data s).map Prod.snd)
    ∧ selectColumns row TrainModel.FEATURES = none :=
  ⟨rfl, rfl, rfl, selectColumns_eq_none hc hmiss⟩

/-- Witness for C4: the spec's example record, and the empty record missing
the required column "amount". -/
theorem C4_witness :
    (App.input_data exampleSidebar).map Prod.fst = TrainModel.FEATURES
    ∧ TrainModel.FEATURES.length = 18
    ∧ selectColumns (App.input_data exampleSidebar) TrainModel.FEATURES
        = some ((App.input_data exampleSidebar).map Prod.snd)
    ∧ selectColumns ([] : List (String × ℚ)) TrainModel.FEATURES = none :=
  C4_feature_order exampleSidebar [] "amount" (by decide) rfl

/-- C5: for every total count N > 0 and fraud rate strictly inside (0,1),
the generator (train_model.py lines 22-72) outputs exactly N rows — each a
`LabeledRecord`, i.e. the 15 raw fields plus the binary label — in which
the number of fraud-labeled rows is `int(N*rate)`, which is within 1 of
round(N·rate), and the remaining rows are labeled legitimate.  This holds
for an arbitrary sampler behind the numpy draws. -/
theorem C5_generator_counts (S : Sampler) (N : ℤ) (rate : ℚ) (seed : ℕ)
    (hN : 0 < N) (hr0 : 0 < rate) (hr1 : rate < 1) :
    ∃ rows, TrainModel.generate S N rate seed = Except.ok rows
      ∧ rows.length = N.toNat
      ∧ rows.countP (fun r => r.is_fraud == 1) = (pyInt ((N : ℚ) * rate)).toNat
      ∧ rows.countP (fun r => r.is_fraud == 0)
          = N.toNat - (pyInt ((N : ℚ) * rate)).toNat
      ∧ |pyInt ((N : ℚ) * rate) - round ((N : ℚ) * rate)| ≤ 1 := by
  have hN0 : (0 : ℚ) ≤ (N : ℚ) := by exact_mod_cast hN.le
  have hq : (0 : ℚ) ≤ (N : ℚ) * rate := mul_nonneg hN0 hr0.le
  have h1 : 0 ≤ pyInt ((N : ℚ) * rate) := by
    rw [pyInt, if_pos hq]
    exact Int.le_floor.mpr (by exact_mod_cast hq)
  have h2 : pyInt ((N : ℚ) * rate) ≤ N := by
    rw [pyInt, if_pos hq]
    have hle : (N : ℚ) * rate ≤ ((N : ℤ) : ℚ) := by
      calc (N : ℚ) * rate ≤ (N : ℚ) * 1 := mul_le_mul_of_nonneg_left hr1.le hN0
        _ = ((N : ℤ) : ℚ) := mul_one _
    calc ⌊(N : ℚ) * rate⌋ ≤ ⌊((N : ℤ) : ℚ)⌋ := Int.floor_le_floor hle
      _ = N := Int.floor_intCast N
  obtain ⟨rows, hok, hlen, hc1, hc0⟩ := generate_eq_ok S N rate seed h1 h2
  exact ⟨rows, hok, hlen, hc1, hc0, pyInt_close_to_round _ hq⟩

/-- Witness for C5 at N = 5, rate = 1/2, seed 0 and the constant sampler:
five rows, int(5·0.5) = 2 of them fraud, 3 legitimate. -/
theorem C5_witness :
    ∃ rows, TrainModel.generate constSampler 5 (1/2) 0 = Except.ok rows
      ∧ rows.length = (5 : ℤ).toNat
      ∧ rows.countP (fun r => r.is_fraud == 1) = (pyInt (((5 : ℤ) : ℚ) * (1/2))).toNat
      ∧ rows.countP (fun r => r.is_fraud == 0)
          = (5 : ℤ).toNat - (pyInt (((5 : ℤ) : ℚ) * (1/2))).toNat
      ∧ |pyInt (((5 : ℤ) : ℚ) * (1/2)) - round (((5 : ℤ) : ℚ) * (1/2))| ≤ 1 :=
  C5_generator_counts constSampler 5 (1/2) 0 (by norm_num) (by norm_num) (by norm_num)

/-- C6: the generator is deterministic — with the seed fixed, two runs
produce bit-for-bit identical tables, including the identical shuffled row
order (the table is an equal list, so equality covers the order produced by
the seed-keyed permutation of `pandasSample`).  In the embedding the whole
generation pipeline is a pure function of (sampler, N, rate, seed), exactly
because the script seeds numpy once (train_model.py line 22) and fixes the
shuffle seed (line 72), so equal seeds give equal tables. -/
theorem C6_generator_deterministic (S : Sampler) (N : ℤ) (rate : ℚ) (s1 s2 : ℕ)
    (h : s1 = s2) :
    TrainModel.generate S N rate s1 = TrainModel.generate S N rate s2 := by
  rw [h]

/-- Witness for C6: two runs with seed 42 at N = 5, rate = 1/2. -/
theorem C6_witness :
    TrainModel.generate constSampler 5 (1/2) 42
      = TrainModel.generate constSampler 5 (1/2) 42 :=
  C6_generator_deterministic constSampler 5 (1/2) 42 42 rfl

/-- Counterexample to C7: the claim requires the generator to signal an
error immediately when N ≤ 0, but train_model.py performs no parameter
validation at all — at N = 0 (and the in-range rate 0.02) the code runs to
completion and returns an empty table instead of an error. -/
theorem C7_counterexample :
    (0 : ℤ) ≤ 0
    ∧ TrainModel.generate constSampler 0 (1/50) 42 = Except.ok [] := by
  refine ⟨le_refl 0, ?_⟩
  simp [TrainModel.generate, pyInt, TrainModel.make_legit, TrainModel.make_fraud,
    pandasSample, sampleShuffleFuel]

/-- C7 as amended: the generator does not validate N or the rate; it
signals an error exactly when one of the two requested population sizes
`int(N*rate)` or `N - int(N*rate)` is negative (the ValueError numpy raises
on a negative sample size), and in every other case — including N = 0 —
it returns a complete dataset with no error. -/
theorem C7_amended_no_validation (S : Sampler) (N : ℤ) (rate : ℚ) (seed : ℕ) :
    (∃ e, TrainModel.generate S N rate seed = Except.error e)
      ↔ (N - pyInt ((N : ℚ) * rate) < 0 ∨ pyInt ((N : ℚ) * rate) < 0) := by
  simp only [TrainModel.generate]
  split_ifs with h
  · exact iff_of_true ⟨_, rfl⟩ h
  · refine iff_of_false ?_ h
    rintro ⟨e, he⟩
    exact he

/-- Witness for C7 (amended), instantiating the equivalence at N = 3,
rate = 2 (so n_legit = 3 - 6 < 0): the generator signals the negative-size
error. -/
theorem C7_amended_witness :
    (∃ e, TrainModel.generate constSampler 3 2 7 = Except.error e)
      ↔ ((3 : ℤ) - pyInt (((3 : ℤ) : ℚ) * 2) < 0 ∨ pyInt (((3 : ℤ) : ℚ) * 2) < 0) :=
  C7_amended_no_validation constSampler 3 2 7

/-- C8: when the artifact load fails (any of the three files absent raises
`FileNotFoundError`, leaving `MODEL_LOADED = False`, app.py lines 30-34),
the app halts at the model check (lines 409-412) with the actionable
message and never reaches inference: the outcome is `halted` with the
error text and is never a rendered prediction. -/
theorem C8_load_failure_halts (s : SidebarInputs) (p : ℚ) (d : ℕ) (t : App.RiskTier) :
    App.runApp none s
      = AppOutcome.halted "⚠️ Model files not found. Please run `python train_model.py` first."
    ∧ App.runApp none s ≠ AppOutcome.rendered p d t :=
  ⟨rfl, fun h => nomatch h⟩

/-- Counterexample to C9: the claim says a caller can pass N (e.g. 100) to
train on a different dataset size without modifying the source, but the
script reads no arguments — invoked with arguments requesting N = 100 it
still generates exactly 50,000 rows, and 50000 ≠ 100. -/
theorem C9_counterexample :
    (∃ rows, TrainModel.train_entry_point constSampler ["100", "0.5"] = Except.ok rows
      ∧ rows.length = 50000)
    ∧ (50000 : ℕ) ≠ 100 := by
  refine ⟨?_, by norm_num⟩
  have hpy : pyInt (((50000 : ℤ) : ℚ) * (1/50)) = 1000 := by
    have hv : ((50000 : ℤ) : ℚ) * (1/50) = ((1000 : ℤ) : ℚ) := by norm_num
    rw [hv, pyInt, if_pos (by norm_num), Int.floor_intCast]
  obtain ⟨rows, hok, hlen, -, -⟩ :=
    generate_eq_ok constSampler 50000 (1/50) 42 (by rw [hpy]; norm_num)
      (by rw [hpy]; norm_num)
  exact ⟨rows, hok, by simpa using hlen⟩

/-- C9 as amended: N and the fraud rate are hardcoded module constants
(50,000 and 0.02, train_model.py lines 23-24), not parameters: the entry
point ignores its command line entirely, so every invocation generates the
same 50,000-row, 2%-fraud dataset and changing either value requires
editing the source. -/
theorem C9_amended_constants_hardcoded (S : Sampler) (argv1 argv2 : List String) :
    TrainModel.train_entry_point S argv1 = TrainModel.train_entry_point S argv2
    ∧ TrainModel.N = 50000
    ∧ TrainModel.FRAUD_RATE = 1/50
    ∧ TrainModel.train_entry_point S argv1 = TrainModel.generate S 50000 (1/50) 42 :=
  ⟨rfl, rfl, rfl, rfl⟩

end FraudDetection
